import Mathlib

set_option maxRecDepth 40000

/-!
Verification of the transcript-analysis pipeline of `app.py` (AI Interview
Analyzer).  The Python source is shallowly embedded below: the prompt builder
`generate_analysis_prompt`, the HTTP client `call_gemini`, and the top-level
response-interpretation block (the `try`/`except` around `json.loads` and the
report rendering) become executable Lean functions.  External collaborators
(the `requests` library, Python's `json` module, the network) are modelled
explicitly: the network interaction is an input (`NetOutcome`), and the JSON
codec is a pair of function parameters `loads` / `dumps` standing for
`json.loads` / `json.dumps`.
-/

/-- A JSON value as produced by Python's `json.loads`.  Numbers are modelled
as integers: none of the analyzed claims involves a non-integer numeric
(Python's `int()` truncates floats without an error, so a float score is
coercible and cannot witness a schema failure). -/
inductive Json where
  | null : Json
  | bool (b : Bool) : Json
  | num (n : Int) : Json
  | str (s : String) : Json
  | arr (items : List Json) : Json
  | obj (fields : List (String × Json)) : Json

/-- Lookup of a key in an object's field list (Python `dict` access; keys in a
decoded JSON object are unique, so first-match lookup is exact). -/
def Json.find? (j : Json) (k : String) : Option Json :=
  match j with
  | .obj fields => fields.lookup k
  | _ => none

/-- List indexing for JSON arrays (Python `x[i]`). -/
def Json.index? (j : Json) (i : Nat) : Option Json :=
  match j with
  | .arr items => items[i]?
  | _ => none

/-- A Python exception arising inside the top-level rendering block.
`keyError` is caught by the source's `except KeyError` handler; `uncaught`
stands for any exception with no matching handler there (`ValueError`,
`TypeError`, `AttributeError`), which escapes the script. -/
inductive PyErr where
  | keyError (k : String) : PyErr
  | uncaught (msg : String) : PyErr

/-- Python subscript `j[k]` with a string key: on a dict, a missing key raises
`KeyError(k)`; on any non-dict value it raises an exception that the source
does not catch (`TypeError` on str/list/int/None). -/
def subscriptKey (j : Json) (k : String) : Except PyErr Json :=
  match j with
  | .obj fields =>
      match fields.lookup k with
      | some v => .ok v
      | none => .error (.keyError k)
  | _ => .error (.uncaught ("TypeError: value under key " ++ k ++ " is not subscriptable"))

/-- ASCII whitespace, as stripped by Python's `int()` conversion.  (Python
also strips some Unicode whitespace; no claim input uses any.) -/
def isPySpace (c : Char) : Bool :=
  c = ' ' || c = '\t' || c = '\n' || c = '\r' || c.toNat = 11 || c.toNat = 12

/-- Accumulator loop for a base-10 digit run: fails on the first non-digit. -/
def parseDigitsLoop : List Char → Nat → Option Nat
  | [], acc => some acc
  | c :: cs, acc =>
      if 48 ≤ c.toNat ∧ c.toNat ≤ 57 then parseDigitsLoop cs (10 * acc + (c.toNat - 48))
      else none

/-- A nonempty all-digit character run parsed as a natural number. -/
def parseDigits : List Char → Option Nat
  | [] => none
  | cs => parseDigitsLoop cs 0

/-- Python `int(s)` on a string: strip surrounding whitespace, allow one
optional sign, then require a nonempty digit run.  (Python additionally
accepts underscore digit separators and non-ASCII digits; no claim input uses
them, so they are not modelled.) -/
def pyIntOfString (s : String) : Option Int :=
  let t := ((s.data.dropWhile isPySpace).reverse.dropWhile isPySpace).reverse
  match t with
  | [] => none
  | c :: rest =>
      if c = '-' then (parseDigits rest).map (fun n => -(n : Int))
      else if c = '+' then (parseDigits rest).map (fun n => (n : Int))
      else (parseDigits t).map (fun n => (n : Int))

/-- Python `s.startswith(pre)`, via the underlying character lists. -/
def pyStartsWith (s pre : String) : Bool := pre.data.isPrefixOf s.data

/-- Python `int(x)` on a decoded JSON value: ints pass through, bools become
0/1, strings are parsed (else `ValueError`), and `None`/lists/dicts raise
`TypeError`.  Both failing exceptions are uncaught in the source. -/
def pyInt (j : Json) : Except PyErr Int :=
  match j with
  | .num n => .ok n
  | .bool b => .ok (if b then 1 else 0)
  | .str s =>
      match pyIntOfString s with
      | some n => .ok n
      | none => .error (.uncaught ("ValueError: invalid literal for int() with base 10: " ++ s))
  | _ => .error (.uncaught "TypeError: int() argument must be a string or a number")

/-- Python `for item in x`: lists iterate elements, dicts iterate keys,
strings iterate one-character strings; other values raise an uncaught
`TypeError`. -/
def pyIter (j : Json) : Except PyErr (List Json) :=
  match j with
  | .arr items => .ok items
  | .obj fields => .ok (fields.map (fun kv => Json.str kv.1))
  | .str s => .ok (s.data.map (fun c => Json.str (String.mk [c])))
  | _ => .error (.uncaught "TypeError: value is not iterable")

/-- The HTTP response as seen by `requests.post`: final status code (after any
redirect handling), reason phrase, and body text (`res.text`). -/
structure HttpResponse where
  statusCode : Nat
  reason : String
  text : String

/-- Outcome of the single `requests.post` dispatch: either a response object,
or a connection-level exception (caught by the source's generic
`except Exception` branch). -/
inductive NetOutcome where
  | response (r : HttpResponse) : NetOutcome
  | connectionError (msg : String) : NetOutcome

def GEMINI_MODEL : String := "gemini-2.5-flash"

def GEMINI_API_VERSION : String := "v1"

def GEMINI_API_URL : String :=
  "https://generativelanguage.googleapis.com/" ++ GEMINI_API_VERSION ++ "/models/"
    ++ GEMINI_MODEL ++ ":generateContent"

/-- Model of `requests.Response.raise_for_status` together with the `str` of
the `HTTPError` it raises: it raises exactly for status codes 400-599, with
the message `"<code> Client Error: <reason> for url: <url>"` (4xx) or
`"<code> Server Error: <reason> for url: <url>"` (5xx); any other status,
2xx or not, passes through silently. -/
def httpErrorStr (url : String) (r : HttpResponse) : Option String :=
  if 400 ≤ r.statusCode ∧ r.statusCode < 500 then
    some (Nat.repr r.statusCode ++ " Client Error: " ++ r.reason ++ " for url: " ++ url)
  else if 500 ≤ r.statusCode ∧ r.statusCode < 600 then
    some (Nat.repr r.statusCode ++ " Server Error: " ++ r.reason ++ " for url: " ++ url)
  else none

/-- The dictionary `\x7b"error": error_msg\x7d` built by `call_gemini`'s
exception handlers. -/
def errObj (msg : String) : Json := Json.obj [("error", Json.str msg)]

/-- The value returned by both `except` branches of `call_gemini`:
`json.dumps(\x7b"error": error_msg\x7d)` when `format_json` is true, the bare
message otherwise. -/
def failReturn (dumps : Json → String) (format_json : Bool) (msg : String) : String :=
  if format_json then dumps (errObj msg) else msg

/-- Extraction `output["candidates"][0]["content"]["parts"][0]["text"]` from
the decoded response envelope.  `none` means some traversal step raised
(`KeyError`/`IndexError`/`TypeError`), which the source's generic
`except Exception` branch absorbs; `some v` is the value found at the path,
whatever its type - the source returns it unchanged. -/
def candidatePayload (j : Json) : Option Json := do
  let c ← j.find? "candidates"
  let c0 ← c.index? 0
  let ct ← c0.find? "content"
  let p ← ct.find? "parts"
  let p0 ← p.index? 0
  p0.find? "text"

/-- The Python value returned by `call_gemini`: a `str` (the usual case, and
every handler return), or - when the envelope's `"text"` slot holds a
non-string and the source's `return` passes it through unchanged
(app.py line 45) - that non-string value itself. -/
inductive CallOutput where
  | text (s : String) : CallOutput
  | nonString (v : Json) : CallOutput

/-- Injection of an arbitrary returned value into `CallOutput`: strings are
the `text` case, anything else is returned as the value it is. -/
def pyReturn (v : Json) : CallOutput :=
  match v with
  | .str s => .text s
  | _ => .nonString v

/-- Result of a `call_gemini` invocation: the returned value, plus a record
of whether `requests.post` was executed.  In the source `requests.post` is the
first statement of the `try` block and nothing before it can raise, so every
invocation dispatches the request - including one with an empty `api_key`,
which is simply interpolated into the query string. -/
structure CallResult where
  output : CallOutput
  dispatched : Bool

/-- Shallow embedding of `call_gemini(prompt, api_key, format_json)` from
`app.py`.  The prompt travels only in the request body (and `format_json`
additionally sets `generationConfig.responseMimeType`), so neither affects the
control flow modelled here beyond the failure-return shape.  `loads` stands
for the `json` module used by `res.json()`, `dumps` for `json.dumps` in the
handlers, and `net` for the outcome of the single `requests.post`.  A
successful envelope traversal returns the found value unchanged (string or
not); only a raising traversal reaches the generic handler. -/
def call_gemini (loads : String → Option Json) (dumps : Json → String)
    (_prompt api_key : String) (format_json : Bool) (net : NetOutcome) : CallResult :=
  match net with
  | .connectionError e =>
      { output := .text (failReturn dumps format_json ("Gemini API Error or parsing issue: " ++ e))
        dispatched := true }
  | .response r =>
      match httpErrorStr (GEMINI_API_URL ++ "?key=" ++ api_key) r with
      | some herr =>
          { output := .text (failReturn dumps format_json
              ("Gemini API HTTP Error: " ++ herr ++ " - " ++ r.text))
            dispatched := true }
      | none =>
          match loads r.text with
          | none =>
              { output := .text (failReturn dumps format_json
                  ("Gemini API Error or parsing issue: Expecting value: line 1 column 1 (char 0)"))
                dispatched := true }
          | some j =>
              match candidatePayload j with
              | some v => { output := pyReturn v, dispatched := true }
              | none =>
                  { output := .text (failReturn dumps format_json
                      ("Gemini API Error or parsing issue: missing candidates/content/parts/text"))
                    dispatched := true }

/-- The `JSON_SCHEMA` triple-quoted literal of `app.py`, transcribed verbatim
(braces written with escapes). -/
def JSON_SCHEMA : String :=
  "\n\x7b\n    \"summary\": \"Overall summary of the discussion.\",\n    \"key_points_speaker_A\": \"Key points mentioned by Speaker A.\",\n    \"key_points_speaker_B\": \"Key points mentioned by Speaker B.\",\n    \"feedback_speaker_A\": \x7b\n        \"confidence_score\": \"Score (1-10)\",\n        \"clarity_score\": \"Score (1-10)\",\n        \"empathy_score\": \"Score (1-10)\",\n        \"sentiment_label\": \"Positive/Neutral/Negative\",\n        \"improvement_suggestions\": [\"Suggestion 1\", \"Suggestion 2\"]\n    \x7d,\n    \"feedback_speaker_B\": \x7b\n        \"confidence_score\": \"Score (1-10)\",\n        \"clarity_score\": \"Score (1-10)\",\n        \"empathy_score\": \"Score (1-10)\",\n        \"sentiment_label\": \"Positive/Neutral/Negative\",\n        \"improvement_suggestions\": [\"Suggestion 1\", \"Suggestion 2\"]\n    \x7d\n\x7d\n"

/-- Literal segment of the prompt f-string before `\x7bdomain\x7d`. -/
def promptPart1 : String :=
  "\n    You are an expert AI Interview Analyzer and mentor. Your task is to analyze the following conversation transcript.\n    The domain is \x27"

/-- Literal segment between `\x7bdomain\x7d` and `\x7bround_type\x7d`. -/
def promptPart2 : String := "\x27 and the round type is \x27"

/-- Literal segment between `\x7bround_type\x7d` and `\x7btranscript\x7d`. -/
def promptPart3 : String :=
  "\x27.\n    \n    Analyze the conversation for two speakers, \x27Speaker A\x27 and \x27Speaker B\x27.\n    \n    Perform the following analysis for both speakers:\n    1. Overall Sentiment and Tone (Positive, Neutral, Negative, Confident, Nervous, etc.).\n    2. Clarity and Coherence Score (1-10).\n    3. Empathy and Emotional Intelligence Score (1-10).\n    4. Confidence Score (1-10).\n    5. Specific, actionable improvement suggestions.\n    \n    Conversation Transcript:\n    ---\n    "

/-- Literal segment between `\x7btranscript\x7d` and `\x7bJSON_SCHEMA\x7d`,
holding the JSON-only instruction sentence. -/
def promptPart4 : String :=
  "\n    ---\n    \n    Generate the final analysis STRICTLY as a single JSON object that conforms to this schema. DO NOT include any text outside the JSON block.\n    "

/-- Literal segment after `\x7bJSON_SCHEMA\x7d` (up to the closing quotes). -/
def promptPart5 : String := "\n    "

/-- Shallow embedding of `generate_analysis_prompt(transcript, domain,
round_type)`: the f-string is exactly this concatenation of its literal
segments and interpolated arguments. -/
def generate_analysis_prompt (transcript domain round_type : String) : String :=
  promptPart1 ++ domain ++ promptPart2 ++ round_type ++ promptPart3 ++ transcript
    ++ promptPart4 ++ JSON_SCHEMA ++ promptPart5

/-- The data the rendering block passes to the Streamlit widgets on the
success path.  `summary`/`keyPointsA`/`keyPointsB` come from `dict.get` with
default `"N/A"`, so they hold whatever JSON value was present (or the default
string); the six scores have been through `int(...)`; the sentiment labels and
the two suggestion sequences are passed as found. -/
structure Report where
  summary : Json
  keyPointsA : Json
  keyPointsB : Json
  confA : Int
  clarA : Int
  empA : Int
  confB : Int
  clarB : Int
  empB : Int
  sentA : Json
  sentB : Json
  suggA : List Json
  suggB : List Json

/-- The three `int(scores[...])` coercions for one speaker, in source order:
`confidence_score`, `clarity_score`, `empathy_score` (each a subscript
followed by `int(...)`). -/
def speakerInts (s : Json) : Except PyErr (Int × Int × Int) :=
  match subscriptKey s "confidence_score" with
  | .error e => .error e
  | .ok v1 =>
    match pyInt v1 with
    | .error e => .error e
    | .ok conf =>
      match subscriptKey s "clarity_score" with
      | .error e => .error e
      | .ok v2 =>
        match pyInt v2 with
        | .error e => .error e
        | .ok clar =>
          match subscriptKey s "empathy_score" with
          | .error e => .error e
          | .ok v3 =>
            match pyInt v3 with
            | .error e => .error e
            | .ok emp => .ok (conf, clar, emp)

/-- The rendering block of `app.py` after the `"error"` check, with the
source's evaluation order: the three `.get(..., "N/A")` reads (which cannot
raise), then `report_data["feedback_speaker_A"]`,
`report_data["feedback_speaker_B"]`, the six `int(...)` coercions for the
`metrics_df` literal (speaker A's three, then speaker B's three), the two
`sentiment_label` reads, and the two `improvement_suggestions` loops.  The
first exception wins, exactly as in Python. -/
def buildReport (j : Json) : Except PyErr Report :=
  let summary := (j.find? "summary").getD (Json.str "N/A")
  let kpA := (j.find? "key_points_speaker_A").getD (Json.str "N/A")
  let kpB := (j.find? "key_points_speaker_B").getD (Json.str "N/A")
  match subscriptKey j "feedback_speaker_A" with
  | .error e => .error e
  | .ok scores_a =>
    match subscriptKey j "feedback_speaker_B" with
    | .error e => .error e
    | .ok scores_b =>
      match speakerInts scores_a with
      | .error e => .error e
      | .ok (confA, clarA, empA) =>
        match speakerInts scores_b with
        | .error e => .error e
        | .ok (confB, clarB, empB) =>
          match subscriptKey scores_a "sentiment_label" with
          | .error e => .error e
          | .ok sentA =>
            match subscriptKey scores_b "sentiment_label" with
            | .error e => .error e
            | .ok sentB =>
              match subscriptKey scores_a "improvement_suggestions" with
              | .error e => .error e
              | .ok sgA =>
                match pyIter sgA with
                | .error e => .error e
                | .ok suggA =>
                  match subscriptKey scores_b "improvement_suggestions" with
                  | .error e => .error e
                  | .ok sgB =>
                    match pyIter sgB with
                    | .error e => .error e
                    | .ok suggB =>
                      .ok { summary := summary, keyPointsA := kpA, keyPointsB := kpB,
                            confA := confA, clarA := clarA, empA := empA,
                            confB := confB, clarB := clarB, empB := empB,
                            sentA := sentA, sentB := sentB,
                            suggA := suggA, suggB := suggB }

/-- Observable outcome of the analysis-and-output section for one button
press. -/
inductive AppOutcome where
  | noAction : AppOutcome
  | emptyKeyError : AppOutcome
  | invalidKeyError : AppOutcome
  | analysisFailed (err : Json) : AppOutcome
  | parseFailure (raw : String) : AppOutcome
  | schemaFailure (missingKey : String) (raw : String) : AppOutcome
  | uncaughtException (msg : String) : AppOutcome
  | rendered (rep : Report) : AppOutcome

/-- The decoded-payload half of the `try` block: the `"error" in report_data`
check (which fires the `Analysis failed` error and stops), then the rendering
block.  A caught `KeyError` becomes the source's `Key missing` error, shown
together with the raw output (`st.code(json_output)`); any other exception
escapes the script.  A non-dict top-level JSON value always ends in an
uncaught exception in the source (`in` / `.get` / subscript on a non-dict). -/
def interpretStructuredJson (j : Json) (raw : String) : AppOutcome :=
  match j with
  | .obj fields =>
      match fields.lookup "error" with
      | some e => .analysisFailed e
      | none =>
          match buildReport (.obj fields) with
          | .ok rep => .rendered rep
          | .error (.keyError k) => .schemaFailure k raw
          | .error (.uncaught m) => .uncaughtException m
  | _ => .uncaughtException "TypeError: top-level JSON value is not an object"

/-- The whole `try`/`except` block of `app.py`: `json.loads(json_output)`
(a `JSONDecodeError` is caught and the raw string is shown via
`st.code(json_output)`), then the decoded-payload interpretation. -/
def interpretTop (loads : String → Option Json) (json_output : String) : AppOutcome :=
  match loads json_output with
  | none => .parseFailure json_output
  | some j => interpretStructuredJson j json_output

/-- Observable result of one button press: whether
`generate_analysis_prompt` ran, whether `requests.post` ran, and the rendered
outcome. -/
structure AppResult where
  promptBuilt : Bool
  networkCalled : Bool
  outcome : AppOutcome

/-- The top-level control flow of `app.py` around the Analyze button:
`if analyze_button and transcript_input and gemini_api_key:` (Python
truthiness: nonempty strings), then the `AIza` prefix gate
(`st.error` + `st.stop()` for other keys), then prompt construction, the
`call_gemini(..., format_json=True)` dispatch, and the interpretation block;
`elif analyze_button and not gemini_api_key:` shows the enter-your-key
error. -/
def runApp (loads : String → Option Json) (dumps : Json → String)
    (analyze_button : Bool) (transcript_input gemini_api_key domain round_type : String)
    (net : NetOutcome) : AppResult :=
  if analyze_button = true ∧ transcript_input ≠ "" ∧ gemini_api_key ≠ "" then
    if pyStartsWith gemini_api_key "AIza" = false then
      { promptBuilt := false, networkCalled := false, outcome := .invalidKeyError }
    else
      let prompt := generate_analysis_prompt transcript_input domain round_type
      let call := call_gemini loads dumps prompt gemini_api_key true net
      { promptBuilt := true, networkCalled := call.dispatched,
        outcome :=
          match call.output with
          | .text s => interpretTop loads s
          | .nonString _ =>
              .uncaughtException
                "TypeError: the JSON object must be str, bytes or bytearray" }
  else if analyze_button = true ∧ gemini_api_key = "" then
    { promptBuilt := false, networkCalled := false, outcome := .emptyKeyError }
  else
    { promptBuilt := false, networkCalled := false, outcome := .noAction }

/-- Substring relation on strings (via the underlying character lists). -/
def Contains (s sub : String) : Prop := sub.data <:+: s.data

/-- The non-exceptional condition of `call_gemini` for a given network
outcome, read off the happy path of the source: a response whose status is
outside 400-599, whose body decodes as JSON, and whose envelope traversal
finds a value at candidates/content/parts/text; the value is that payload
(string or not).  `none` is exactly the set of exception paths through the
`try` block. -/
def netPayload (loads : String → Option Json) (api_key : String)
    (net : NetOutcome) : Option Json :=
  match net with
  | .connectionError _ => none
  | .response r =>
      match httpErrorStr (GEMINI_API_URL ++ "?key=" ++ api_key) r with
      | some _ => none
      | none =>
          match loads r.text with
          | none => none
          | some j => candidatePayload j

/-- A `json.loads` stand-in that fails on every input (used where the decoded
value is never consulted, or to exhibit an undecodable body). -/
def loadsNone : String → Option Json := fun _ => none

/-- A `json.dumps` stand-in returning a fixed string (used where the encoded
value is never consulted). -/
def dumpsConst : Json → String := fun _ => "DUMPED"

/-- A well-formed Gemini response envelope whose nested text payload is
`"hello"`. -/
def envelopeHello : Json :=
  Json.obj [("candidates", Json.arr [Json.obj [("content",
    Json.obj [("parts", Json.arr [Json.obj [("text", Json.str "hello")]])])]])]

/-- A `json.loads` stand-in decoding the body `"ENV"` to `envelopeHello`. -/
def loadsEnv : String → Option Json :=
  fun s => if s = "ENV" then some envelopeHello else none

/-- A 200 response whose body decodes (under `loadsEnv`) to a well-formed
envelope. -/
def r200 : HttpResponse := { statusCode := 200, reason := "OK", text := "ENV" }

/-- A non-2xx response outside the 400-599 band with an empty body, as
delivered to the caller by `requests` (304 is not followed as a redirect). -/
def r304 : HttpResponse := { statusCode := 304, reason := "Not Modified", text := "" }

/-- The rate-limit response of the spec scenario: HTTP 429 with body
`\x7b"error":"rate limited"\x7d`. -/
def r429 : HttpResponse :=
  { statusCode := 429, reason := "Too Many Requests",
    text := "\x7b\"error\":\"rate limited\"\x7d" }

/-- Field list of a fully-populated per-speaker feedback object whose
confidence score is the string `"7"` (the spec's coercion scenario). -/
def feedbackFieldsA : List (String × Json) :=
  [("confidence_score", Json.str "7"),
   ("clarity_score", Json.num 8),
   ("empathy_score", Json.num 6),
   ("sentiment_label", Json.str "Positive"),
   ("improvement_suggestions",
     Json.arr [Json.str "Pause less", Json.str "Quantify results"])]

/-- The feedback object over `feedbackFieldsA`. -/
def goodFeedbackA : Json := Json.obj feedbackFieldsA

/-- A fully-populated per-speaker feedback object with integer scores. -/
def goodFeedbackB : Json :=
  Json.obj [("confidence_score", Json.num 9),
            ("clarity_score", Json.num 9),
            ("empathy_score", Json.num 8),
            ("sentiment_label", Json.str "Neutral"),
            ("improvement_suggestions", Json.arr [Json.str "Ask follow-ups"])]

/-- A decoded response that is valid JSON and omits only the required field
`summary`; every other required field is present and well-formed. -/
def responseMissingSummary : Json :=
  Json.obj [("key_points_speaker_A", Json.str "kpA"),
            ("key_points_speaker_B", Json.str "kpB"),
            ("feedback_speaker_A", goodFeedbackA),
            ("feedback_speaker_B", goodFeedbackB)]

/-- The report the rendering block produces from `responseMissingSummary`:
the absent summary is displayed as the default string `"N/A"`. -/
def reportMissingSummary : Report :=
  { summary := Json.str "N/A", keyPointsA := Json.str "kpA", keyPointsB := Json.str "kpB",
    confA := 7, clarA := 8, empA := 6, confB := 9, clarB := 9, empB := 8,
    sentA := Json.str "Positive", sentB := Json.str "Neutral",
    suggA := [Json.str "Pause less", Json.str "Quantify results"],
    suggB := [Json.str "Ask follow-ups"] }

/-- A decoded response that is valid JSON and omits only the required field
`key_points_speaker_A`. -/
def responseMissingKpA : Json :=
  Json.obj [("summary", Json.str "ok"),
            ("key_points_speaker_B", Json.str "kpB"),
            ("feedback_speaker_A", goodFeedbackA),
            ("feedback_speaker_B", goodFeedbackB)]

/-- The report rendered from `responseMissingKpA`: the absent key-points
field is displayed as the default string `"N/A"`. -/
def reportMissingKpA : Report :=
  { summary := Json.str "ok", keyPointsA := Json.str "N/A", keyPointsB := Json.str "kpB",
    confA := 7, clarA := 8, empA := 6, confB := 9, clarB := 9, empB := 8,
    sentA := Json.str "Positive", sentB := Json.str "Neutral",
    suggA := [Json.str "Pause less", Json.str "Quantify results"],
    suggB := [Json.str "Ask follow-ups"] }

/-- A decoded response that is valid JSON and omits only the required field
`key_points_speaker_B`. -/
def responseMissingKpB : Json :=
  Json.obj [("summary", Json.str "ok"),
            ("key_points_speaker_A", Json.str "kpA"),
            ("feedback_speaker_A", goodFeedbackA),
            ("feedback_speaker_B", goodFeedbackB)]

/-- The report rendered from `responseMissingKpB`: the absent key-points
field is displayed as the default string `"N/A"`. -/
def reportMissingKpB : Report :=
  { summary := Json.str "ok", keyPointsA := Json.str "kpA", keyPointsB := Json.str "N/A",
    confA := 7, clarA := 8, empA := 6, confB := 9, clarB := 9, empB := 8,
    sentA := Json.str "Positive", sentB := Json.str "Neutral",
    suggA := [Json.str "Pause less", Json.str "Quantify results"],
    suggB := [Json.str "Ask follow-ups"] }

/-- A per-speaker feedback object missing its `confidence_score` field. -/
def feedbackMissingConf : Json :=
  Json.obj [("clarity_score", Json.num 8),
            ("empathy_score", Json.num 6),
            ("sentiment_label", Json.str "Positive"),
            ("improvement_suggestions", Json.arr [])]

/-- A decoded response missing only `feedback_speaker_A.confidence_score`. -/
def responseMissingConf : Json :=
  Json.obj [("summary", Json.str "ok"),
            ("key_points_speaker_A", Json.str "kpA"),
            ("key_points_speaker_B", Json.str "kpB"),
            ("feedback_speaker_A", feedbackMissingConf),
            ("feedback_speaker_B", goodFeedbackB)]

/-- Field list of a per-speaker feedback object missing only its
`improvement_suggestions`. -/
def feedbackFieldsMissingSugg : List (String × Json) :=
  [("confidence_score", Json.num 9),
   ("clarity_score", Json.num 9),
   ("empathy_score", Json.num 8),
   ("sentiment_label", Json.str "Neutral")]

/-- Field list of a decoded response missing only speaker B's
`improvement_suggestions` (everything else present and well-formed). -/
def fieldsMissingSuggB : List (String × Json) :=
  [("summary", Json.str "ok"),
   ("key_points_speaker_A", Json.str "kpA"),
   ("key_points_speaker_B", Json.str "kpB"),
   ("feedback_speaker_A", Json.obj feedbackFieldsA),
   ("feedback_speaker_B", Json.obj feedbackFieldsMissingSugg)]

/-- A per-speaker feedback object whose confidence score is the non-coercible
string `"excellent"`. -/
def feedbackBadScore : Json :=
  Json.obj [("confidence_score", Json.str "excellent"),
            ("clarity_score", Json.num 8),
            ("empathy_score", Json.num 6),
            ("sentiment_label", Json.str "Positive"),
            ("improvement_suggestions", Json.arr [])]

/-- A decoded response that is valid JSON with every required field present,
but whose `feedback_speaker_A.confidence_score` is not coercible to int. -/
def responseBadScore : Json :=
  Json.obj [("summary", Json.str "ok"),
            ("key_points_speaker_A", Json.str "kpA"),
            ("key_points_speaker_B", Json.str "kpB"),
            ("feedback_speaker_A", feedbackBadScore),
            ("feedback_speaker_B", goodFeedbackB)]

/-- The canonical fully-populated response of the spec's coercion scenario
(`confidence_score` of speaker A is the string `"7"`). -/
def canonicalResponse : Json :=
  Json.obj [("summary", Json.str "Short greeting exchange."),
            ("key_points_speaker_A", Json.str "Greets politely."),
            ("key_points_speaker_B", Json.str "Greets back."),
            ("feedback_speaker_A", goodFeedbackA),
            ("feedback_speaker_B", goodFeedbackB)]

/-- The report rendered from `canonicalResponse`: the string score `"7"` has
been coerced to the integer 7. -/
def canonicalReport : Report :=
  { summary := Json.str "Short greeting exchange.",
    keyPointsA := Json.str "Greets politely.", keyPointsB := Json.str "Greets back.",
    confA := 7, clarA := 8, empA := 6, confB := 9, clarB := 9, empB := 8,
    sentA := Json.str "Positive", sentB := Json.str "Neutral",
    suggA := [Json.str "Pause less", Json.str "Quantify results"],
    suggB := [Json.str "Ask follow-ups"] }

/-- The failure message `call_gemini` produces for a connection error with
exception text `"boom"`. -/
def msgC9 : String := "Gemini API Error or parsing issue: boom"

/-- A `json.dumps` stand-in used to close the failure round-trip: it encodes
to the fixed string `"EFAIL"`. -/
def dumpsC9 : Json → String := fun _ => "EFAIL"

/-- The matching `json.loads` stand-in: decoding `"EFAIL"` recovers the
`\x7b"error": ...\x7d` object for `msgC9`. -/
def loadsC9 : String → Option Json :=
  fun s => if s = "EFAIL" then some (errObj msgC9) else none

instance (s sub : String) : Decidable (Contains s sub) :=
  inferInstanceAs (Decidable (sub.data <:+: s.data))

/-! Helper lemmas about string containment. -/

theorem dataAppend (s t : String) : (s ++ t).data = s.data ++ t.data := by
  cases s; cases t; rfl

theorem contains_appendLeft {s sub : String} (t : String) (h : Contains s sub) :
    Contains (t ++ s) sub := by
  unfold Contains at h ⊢
  rw [dataAppend]
  exact h.trans (List.suffix_append t.data s.data).isInfix

theorem contains_appendRight {s sub : String} (t : String) (h : Contains s sub) :
    Contains (s ++ t) sub := by
  unfold Contains at h ⊢
  rw [dataAppend]
  exact h.trans (List.prefix_append s.data t.data).isInfix

theorem contains_prefixStr (s t : String) : Contains (s ++ t) s := by
  unfold Contains
  rw [dataAppend]
  exact (List.prefix_append s.data t.data).isInfix

theorem contains_suffixStr (s t : String) : Contains (t ++ s) s := by
  unfold Contains
  rw [dataAppend]
  exact (List.suffix_append t.data s.data).isInfix

/-- Shape of the `raise_for_status` error text for any 4xx/5xx response: the
decimal status code, a kind marker, the reason, and the url. -/
theorem httpErrorStr_eq (url : String) (r : HttpResponse)
    (h1 : 400 ≤ r.statusCode) (h2 : r.statusCode < 600) :
    ∃ kind, httpErrorStr url r
      = some (Nat.repr r.statusCode ++ kind ++ r.reason ++ " for url: " ++ url) := by
  unfold httpErrorStr
  by_cases hc : r.statusCode < 500
  · exact ⟨" Client Error: ", by rw [if_pos ⟨h1, hc⟩]⟩
  · refine ⟨" Server Error: ", ?_⟩
    rw [if_neg (fun hand => hc hand.2), if_pos ⟨Nat.le_of_not_lt hc, h2⟩]

/-- The `requests.post` dispatch happens on every path through
`call_gemini`: it is the first statement of the `try` block and nothing
before it can raise. -/
theorem call_gemini_dispatched (loads : String → Option Json) (dumps : Json → String)
    (prompt api_key : String) (format_json : Bool) (net : NetOutcome) :
    (call_gemini loads dumps prompt api_key format_json net).dispatched = true := by
  cases net with
  | connectionError e => rfl
  | response r =>
      cases hh : httpErrorStr (GEMINI_API_URL ++ "?key=" ++ api_key) r with
      | some herr => simp [call_gemini, hh]
      | none =>
          cases hl : loads r.text with
          | none => simp [call_gemini, hh, hl]
          | some j =>
              cases hg : candidatePayload j with
              | none => simp [call_gemini, hh, hl, hg]
              | some v => simp [call_gemini, hh, hl, hg]

/-- Evaluation of `speakerInts` when the feedback object misses its
`confidence_score`: the first subscript raises `KeyError`. -/
theorem speakerInts_conf_missing (g : List (String × Json))
    (h : g.lookup "confidence_score" = none) :
    speakerInts (Json.obj g) = Except.error (PyErr.keyError "confidence_score") := by
  simp [speakerInts, subscriptKey, h]

/-- Evaluation of `speakerInts` when `confidence_score` is present and
coercible but `clarity_score` is missing. -/
theorem speakerInts_clar_missing (g : List (String × Json)) (cv : Json) (cn : Int)
    (h1 : g.lookup "confidence_score" = some cv) (h2 : pyInt cv = Except.ok cn)
    (h3 : g.lookup "clarity_score" = none) :
    speakerInts (Json.obj g) = Except.error (PyErr.keyError "clarity_score") := by
  simp [speakerInts, subscriptKey, h1, h2, h3]

/-- Evaluation of `speakerInts` when the two earlier scores are present and
coercible but `empathy_score` is missing. -/
theorem speakerInts_emp_missing (g : List (String × Json)) (cv lv : Json) (cn ln : Int)
    (h1 : g.lookup "confidence_score" = some cv) (h2 : pyInt cv = Except.ok cn)
    (h3 : g.lookup "clarity_score" = some lv) (h4 : pyInt lv = Except.ok ln)
    (h5 : g.lookup "empathy_score" = none) :
    speakerInts (Json.obj g) = Except.error (PyErr.keyError "empathy_score") := by
  simp [speakerInts, subscriptKey, h1, h2, h3, h4, h5]

/-- C1 counterexample: decoded responses that are valid JSON and omit exactly
one of `summary`, `key_points_speaker_A` or `key_points_speaker_B`
(everything else present and well-formed) are NOT turned into a SCHEMA error
naming the field; the rendering block proceeds to a fully rendered report in
which the missing field is displayed as the default string `"N/A"`. -/
theorem C1_counterexample :
    (interpretStructuredJson responseMissingSummary "RAW" =
        AppOutcome.rendered reportMissingSummary
      ∧ reportMissingSummary.summary = Json.str "N/A")
    ∧ (interpretStructuredJson responseMissingKpA "RAW" =
        AppOutcome.rendered reportMissingKpA
      ∧ reportMissingKpA.keyPointsA = Json.str "N/A")
    ∧ (interpretStructuredJson responseMissingKpB "RAW" =
        AppOutcome.rendered reportMissingKpB
      ∧ reportMissingKpB.keyPointsB = Json.str "N/A") :=
  ⟨⟨rfl, rfl⟩, ⟨rfl, rfl⟩, ⟨rfl, rfl⟩⟩

/-- C1 amended: only the per-speaker feedback objects and their
score/sentiment/suggestion fields are guarded by the `KeyError` handler.
Conjuncts 1-12 prove, universally over decoded objects without an `"error"`
key, that the first missing such field in the code's evaluation order - the
`feedback_speaker_A`/`feedback_speaker_B` object itself,
`confidence_score`/`clarity_score`/`empathy_score` of either speaker (given
the earlier scores present and coercible), `sentiment_label` of either
speaker (given all six scores coerced), or `improvement_suggestions` of
either speaker (given the sentiments present, and speaker A's suggestions
iterable for the speaker-B case) - yields the schema-error outcome naming
exactly that field and carrying the raw payload.  Conjuncts 13-15: a missing
`summary`, `key_points_speaker_A` or `key_points_speaker_B` is instead
rendered with the default `"N/A"` and no error. -/
theorem C1_theorem :
    (∀ (fields : List (String × Json)) (raw : String),
        fields.lookup "error" = none →
        fields.lookup "feedback_speaker_A" = none →
        interpretStructuredJson (Json.obj fields) raw =
          AppOutcome.schemaFailure "feedback_speaker_A" raw)
    ∧ (∀ (fields : List (String × Json)) (raw : String) (sa : Json),
        fields.lookup "error" = none →
        fields.lookup "feedback_speaker_A" = some sa →
        fields.lookup "feedback_speaker_B" = none →
        interpretStructuredJson (Json.obj fields) raw =
          AppOutcome.schemaFailure "feedback_speaker_B" raw)
    ∧ (∀ (fields : List (String × Json)) (raw : String)
          (ga : List (String × Json)) (sb : Json),
        fields.lookup "error" = none →
        fields.lookup "feedback_speaker_A" = some (Json.obj ga) →
        fields.lookup "feedback_speaker_B" = some sb →
        ga.lookup "confidence_score" = none →
        interpretStructuredJson (Json.obj fields) raw =
          AppOutcome.schemaFailure "confidence_score" raw)
    ∧ (∀ (fields : List (String × Json)) (raw : String)
          (ga : List (String × Json)) (sb cv : Json) (cn : Int),
        fields.lookup "error" = none →
        fields.lookup "feedback_speaker_A" = some (Json.obj ga) →
        fields.lookup "feedback_speaker_B" = some sb →
        ga.lookup "confidence_score" = some cv → pyInt cv = Except.ok cn →
        ga.lookup "clarity_score" = none →
        interpretStructuredJson (Json.obj fields) raw =
          AppOutcome.schemaFailure "clarity_score" raw)
    ∧ (∀ (fields : List (String × Json)) (raw : String)
          (ga : List (String × Json)) (sb cv lv : Json) (cn ln : Int),
        fields.lookup "error" = none →
        fields.lookup "feedback_speaker_A" = some (Json.obj ga) →
        fields.lookup "feedback_speaker_B" = some sb →
        ga.lookup "confidence_score" = some cv → pyInt cv = Except.ok cn →
        ga.lookup "clarity_score" = some lv → pyInt lv = Except.ok ln →
        ga.lookup "empathy_score" = none →
        interpretStructuredJson (Json.obj fields) raw =
          AppOutcome.schemaFailure "empathy_score" raw)
    ∧ (∀ (fields : List (String × Json)) (raw : String) (sa : Json)
          (gb : List (String × Json)) (ta : Int × Int × Int),
        fields.lookup "error" = none →
        fields.lookup "feedback_speaker_A" = some sa →
        fields.lookup "feedback_speaker_B" = some (Json.obj gb) →
        speakerInts sa = Except.ok ta →
        gb.lookup "confidence_score" = none →
        interpretStructuredJson (Json.obj fields) raw =
          AppOutcome.schemaFailure "confidence_score" raw)
    ∧ (∀ (fields : List (String × Json)) (raw : String) (sa : Json)
          (gb : List (String × Json)) (ta : Int × Int × Int) (cv : Json) (cn : Int),
        fields.lookup "error" = none →
        fields.lookup "feedback_speaker_A" = some sa →
        fields.lookup "feedback_speaker_B" = some (Json.obj gb) →
        speakerInts sa = Except.ok ta →
        gb.lookup "confidence_score" = some cv → pyInt cv = Except.ok cn →
        gb.lookup "clarity_score" = none →
        interpretStructuredJson (Json.obj fields) raw =
          AppOutcome.schemaFailure "clarity_score" raw)
    ∧ (∀ (fields : List (String × Json)) (raw : String) (sa : Json)
          (gb : List (String × Json)) (ta : Int × Int × Int) (cv lv : Json) (cn ln : Int),
        fields.lookup "error" = none →
        fields.lookup "feedback_speaker_A" = some sa →
        fields.lookup "feedback_speaker_B" = some (Json.obj gb) →
        speakerInts sa = Except.ok ta →
        gb.lookup "confidence_score" = some cv → pyInt cv = Except.ok cn →
        gb.lookup "clarity_score" = some lv → pyInt lv = Except.ok ln →
        gb.lookup "empathy_score" = none →
        interpretStructuredJson (Json.obj fields) raw =
          AppOutcome.schemaFailure "empathy_score" raw)
    ∧ (∀ (fields : List (String × Json)) (raw : String)
          (ga : List (String × Json)) (sb : Json) (ta tb : Int × Int × Int),
        fields.lookup "error" = none →
        fields.lookup "feedback_speaker_A" = some (Json.obj ga) →
        fields.lookup "feedback_speaker_B" = some sb →
        speakerInts (Json.obj ga) = Except.ok ta →
        speakerInts sb = Except.ok tb →
        ga.lookup "sentiment_label" = none →
        interpretStructuredJson (Json.obj fields) raw =
          AppOutcome.schemaFailure "sentiment_label" raw)
    ∧ (∀ (fields : List (String × Json)) (raw : String)
          (ga gb : List (String × Json)) (ta tb : Int × Int × Int) (sv : Json),
        fields.lookup "error" = none →
        fields.lookup "feedback_speaker_A" = some (Json.obj ga) →
        fields.lookup "feedback_speaker_B" = some (Json.obj gb) →
        speakerInts (Json.obj ga) = Except.ok ta →
        speakerInts (Json.obj gb) = Except.ok tb →
        ga.lookup "sentiment_label" = some sv →
        gb.lookup "sentiment_label" = none →
        interpretStructuredJson (Json.obj fields) raw =
          AppOutcome.schemaFailure "sentiment_label" raw)
    ∧ (∀ (fields : List (String × Json)) (raw : String)
          (ga gb : List (String × Json)) (ta tb : Int × Int × Int) (sv sw : Json),
        fields.lookup "error" = none →
        fields.lookup "feedback_speaker_A" = some (Json.obj ga) →
        fields.lookup "feedback_speaker_B" = some (Json.obj gb) →
        speakerInts (Json.obj ga) = Except.ok ta →
        speakerInts (Json.obj gb) = Except.ok tb →
        ga.lookup "sentiment_label" = some sv →
        gb.lookup "sentiment_label" = some sw →
        ga.lookup "improvement_suggestions" = none →
        interpretStructuredJson (Json.obj fields) raw =
          AppOutcome.schemaFailure "improvement_suggestions" raw)
    ∧ (∀ (fields : List (String × Json)) (raw : String)
          (ga gb : List (String × Json)) (ta tb : Int × Int × Int) (sv sw av : Json)
          (al : List Json),
        fields.lookup "error" = none →
        fields.lookup "feedback_speaker_A" = some (Json.obj ga) →
        fields.lookup "feedback_speaker_B" = some (Json.obj gb) →
        speakerInts (Json.obj ga) = Except.ok ta →
        speakerInts (Json.obj gb) = Except.ok tb →
        ga.lookup "sentiment_label" = some sv →
        gb.lookup "sentiment_label" = some sw →
        ga.lookup "improvement_suggestions" = some av → pyIter av = Except.ok al →
        gb.lookup "improvement_suggestions" = none →
        interpretStructuredJson (Json.obj fields) raw =
          AppOutcome.schemaFailure "improvement_suggestions" raw)
    ∧ interpretStructuredJson responseMissingSummary "RAW2" =
        AppOutcome.rendered reportMissingSummary
    ∧ interpretStructuredJson responseMissingKpA "RAW2" =
        AppOutcome.rendered reportMissingKpA
    ∧ interpretStructuredJson responseMissingKpB "RAW2" =
        AppOutcome.rendered reportMissingKpB := by
  refine ⟨?_, ?_, ?_, ?_, ?_, ?_, ?_, ?_, ?_, ?_, ?_, ?_, rfl, rfl, rfl⟩
  · intro fields raw he ha
    simp [interpretStructuredJson, he, buildReport, subscriptKey, ha]
  · intro fields raw sa he ha hb
    simp [interpretStructuredJson, he, buildReport, subscriptKey, ha, hb]
  · intro fields raw ga sb he ha hb hc
    have hsa := speakerInts_conf_missing ga hc
    simp [interpretStructuredJson, he, buildReport, subscriptKey, ha, hb, hsa]
  · intro fields raw ga sb cv cn he ha hb h1 h2 h3
    have hsa := speakerInts_clar_missing ga cv cn h1 h2 h3
    simp [interpretStructuredJson, he, buildReport, subscriptKey, ha, hb, hsa]
  · intro fields raw ga sb cv lv cn ln he ha hb h1 h2 h3 h4 h5
    have hsa := speakerInts_emp_missing ga cv lv cn ln h1 h2 h3 h4 h5
    simp [interpretStructuredJson, he, buildReport, subscriptKey, ha, hb, hsa]
  · intro fields raw sa gb ta he ha hb hta hc
    have hsb := speakerInts_conf_missing gb hc
    simp [interpretStructuredJson, he, buildReport, subscriptKey, ha, hb, hta, hsb]
  · intro fields raw sa gb ta cv cn he ha hb hta h1 h2 h3
    have hsb := speakerInts_clar_missing gb cv cn h1 h2 h3
    simp [interpretStructuredJson, he, buildReport, subscriptKey, ha, hb, hta, hsb]
  · intro fields raw sa gb ta cv lv cn ln he ha hb hta h1 h2 h3 h4 h5
    have hsb := speakerInts_emp_missing gb cv lv cn ln h1 h2 h3 h4 h5
    simp [interpretStructuredJson, he, buildReport, subscriptKey, ha, hb, hta, hsb]
  · intro fields raw ga sb ta tb he ha hb hta htb hs
    simp [interpretStructuredJson, he, buildReport, subscriptKey, ha, hb, hta, htb, hs]
  · intro fields raw ga gb ta tb sv he ha hb hta htb hs1 hs2
    simp [interpretStructuredJson, he, buildReport, subscriptKey, ha, hb, hta, htb, hs1, hs2]
  · intro fields raw ga gb ta tb sv sw he ha hb hta htb hs1 hs2 hg1
    simp [interpretStructuredJson, he, buildReport, subscriptKey, ha, hb, hta, htb,
      hs1, hs2, hg1]
  · intro fields raw ga gb ta tb sv sw av al he ha hb hta htb hs1 hs2 hg1 hg2 hg3
    simp [interpretStructuredJson, he, buildReport, subscriptKey, ha, hb, hta, htb,
      hs1, hs2, hg1, hg2, hg3]

/-- C1 witness: the amended theorem applied at concrete inputs - the first
conjunct at the spec scenario payload `\x7b"summary": "ok"\x7d` (the outcome
names the missing per-speaker key), and the twelfth conjunct at a response
missing only speaker B's `improvement_suggestions`, discharging the full
hypothesis chain by evaluation. -/
theorem C1_witness :
    interpretStructuredJson (Json.obj [("summary", Json.str "ok")]) "W" =
      AppOutcome.schemaFailure "feedback_speaker_A" "W"
    ∧ interpretStructuredJson (Json.obj fieldsMissingSuggB) "W" =
      AppOutcome.schemaFailure "improvement_suggestions" "W" :=
  ⟨C1_theorem.1 [("summary", Json.str "ok")] "W" rfl rfl,
   C1_theorem.2.2.2.2.2.2.2.2.2.2.2.1 fieldsMissingSuggB "W" feedbackFieldsA
     feedbackFieldsMissingSugg (7, 8, 6) (9, 9, 8) (Json.str "Positive") (Json.str "Neutral")
     (Json.arr [Json.str "Pause less", Json.str "Quantify results"])
     [Json.str "Pause less", Json.str "Quantify results"]
     rfl rfl rfl rfl rfl rfl rfl rfl rfl rfl⟩

/-- C2 counterexample: `call_gemini` itself performs no credential check -
invoked with the empty key it still executes `requests.post` (the key is
merely interpolated into the query string) and, given a successful response,
returns the extracted text rather than any AUTH-stage error. -/
theorem C2_counterexample :
    (call_gemini loadsEnv dumpsConst "p" "" true (NetOutcome.response r200)).dispatched = true
    ∧ (call_gemini loadsEnv dumpsConst "p" "" true (NetOutcome.response r200)).output
        = CallOutput.text "hello" :=
  ⟨rfl, rfl⟩

/-- C2 amended: the empty-credential precondition lives in the top-level app
flow, not in `call_gemini`: for every press of Analyze with an empty key
(whatever the transcript and network), no prompt is built, no network call is
made, and the enter-your-key error is shown. -/
theorem C2_theorem (loads : String → Option Json) (dumps : Json → String)
    (transcript domain round_type : String) (net : NetOutcome) :
    runApp loads dumps true transcript "" domain round_type net =
      { promptBuilt := false, networkCalled := false, outcome := AppOutcome.emptyKeyError } := by
  unfold runApp
  have hc1 : ¬(true = true ∧ transcript ≠ "" ∧ ("" : String) ≠ "") := by simp
  have hc2 : true = true ∧ ("" : String) = "" := by simp
  rw [if_neg hc1, if_pos hc2]

/-- C3: evaluating the rendering block at a valid JSON response whose
`confidence_score` holds the non-coercible string `"excellent"` does not
produce a reported SCHEMA error: `int()` raises a `ValueError` that no
`except` clause catches, so the exception escapes the interpreter. -/
theorem C3_theorem :
    interpretStructuredJson responseBadScore "RAW3" =
      AppOutcome.uncaughtException
        "ValueError: invalid literal for int() with base 10: excellent" := rfl

/-- C4: for every string the JSON decoder rejects, the interpretation block
ends in the parse-failure outcome that carries the original raw string (the
`except json.JSONDecodeError` branch shows it via `st.code`). -/
theorem C4_theorem (loads : String → Option Json) (raw : String)
    (h : loads raw = none) :
    interpretTop loads raw = AppOutcome.parseFailure raw := by
  unfold interpretTop
  rw [h]

/-- C4 witness: the theorem at a concrete undecodable string. -/
theorem C4_witness :
    interpretTop loadsNone "This is not JSON" = AppOutcome.parseFailure "This is not JSON" :=
  C4_theorem loadsNone "This is not JSON" rfl

/-- C5 counterexample: the claim quantifies over every non-2xx response, but
`raise_for_status` only raises for 400-599: a 304 response (non-2xx, not a
followed redirect) produces no HTTP_STATUS error at all - it falls through to
`res.json()` and ends in the generic-exception message, which contains
neither the status code nor the HTTP error marker. -/
theorem C5_counterexample :
    ¬(200 ≤ r304.statusCode ∧ r304.statusCode < 300)
    ∧ (call_gemini loadsNone dumpsConst "p" "AIzaK" false (NetOutcome.response r304)).output
        = CallOutput.text
            "Gemini API Error or parsing issue: Expecting value: line 1 column 1 (char 0)"
    ∧ ¬ Contains
        "Gemini API Error or parsing issue: Expecting value: line 1 column 1 (char 0)"
        "304"
    ∧ ¬ Contains
        "Gemini API Error or parsing issue: Expecting value: line 1 column 1 (char 0)"
        "Gemini API HTTP Error" := by
  exact ⟨by decide, rfl, by decide, by decide⟩

/-- C5 amended: for every 4xx/5xx response, `call_gemini` returns the failure
value built from a message that contains both the decimal status code and the
full response body. -/
theorem C5_theorem (loads : String → Option Json) (dumps : Json → String)
    (prompt api_key : String) (format_json : Bool) (r : HttpResponse)
    (h1 : 400 ≤ r.statusCode) (h2 : r.statusCode < 600) :
    ∃ m, (call_gemini loads dumps prompt api_key format_json (NetOutcome.response r)).output
          = CallOutput.text (failReturn dumps format_json m)
        ∧ Contains m (Nat.repr r.statusCode) ∧ Contains m r.text := by
  obtain ⟨kind, hk⟩ := httpErrorStr_eq (GEMINI_API_URL ++ "?key=" ++ api_key) r h1 h2
  refine ⟨"Gemini API HTTP Error: "
      ++ (Nat.repr r.statusCode ++ kind ++ r.reason ++ " for url: "
          ++ (GEMINI_API_URL ++ "?key=" ++ api_key)) ++ " - " ++ r.text, ?_, ?_, ?_⟩
  · simp only [call_gemini, hk]
  · exact contains_appendRight _ (contains_appendRight _ (contains_appendLeft _
      (contains_appendRight _ (contains_appendRight _ (contains_appendRight _
        (contains_prefixStr _ _))))))
  · exact contains_suffixStr _ _

/-- C5 witness: the theorem at the spec scenario - HTTP 429 with body
`\x7b"error":"rate limited"\x7d`; additionally, the decimal status code is the
literal `"429"` and that body contains `"rate limited"`, so the message
contains both. -/
theorem C5_witness :
    (∃ m, (call_gemini loadsNone dumpsConst "p" "AIzaK" false (NetOutcome.response r429)).output
          = CallOutput.text (failReturn dumpsConst false m)
        ∧ Contains m (Nat.repr r429.statusCode) ∧ Contains m r429.text)
    ∧ Nat.repr r429.statusCode = "429"
    ∧ Contains r429.text "rate limited" :=
  ⟨C5_theorem loadsNone dumpsConst "p" "AIzaK" false r429 (by decide) (by decide),
   rfl, by decide⟩

/-- Lifting of a substring fact about `JSON_SCHEMA` to the whole prompt. -/
theorem prompt_contains_of_schema {sub : String} (t d r : String)
    (h : Contains JSON_SCHEMA sub) :
    Contains (generate_analysis_prompt t d r) sub := by
  unfold generate_analysis_prompt
  exact contains_appendRight _ (contains_appendLeft _ h)

/-- Lifting of a substring fact about `promptPart4` (which holds the
JSON-only instruction) to the whole prompt. -/
theorem prompt_contains_of_part4 {sub : String} (t d r : String)
    (h : Contains promptPart4 sub) :
    Contains (generate_analysis_prompt t d r) sub := by
  unfold generate_analysis_prompt
  exact contains_appendRight _ (contains_appendRight _ (contains_appendLeft _ h))

/-- C6: for every transcript, domain and round type, the prompt built by
`generate_analysis_prompt` contains each of the ten required schema field
names as a literal substring, together with the instruction to emit only a
single JSON object. -/
theorem C6_theorem (transcript domain round_type : String) :
    Contains (generate_analysis_prompt transcript domain round_type) "summary"
    ∧ Contains (generate_analysis_prompt transcript domain round_type) "key_points_speaker_A"
    ∧ Contains (generate_analysis_prompt transcript domain round_type) "key_points_speaker_B"
    ∧ Contains (generate_analysis_prompt transcript domain round_type) "feedback_speaker_A"
    ∧ Contains (generate_analysis_prompt transcript domain round_type) "feedback_speaker_B"
    ∧ Contains (generate_analysis_prompt transcript domain round_type) "confidence_score"
    ∧ Contains (generate_analysis_prompt transcript domain round_type) "clarity_score"
    ∧ Contains (generate_analysis_prompt transcript domain round_type) "empathy_score"
    ∧ Contains (generate_analysis_prompt transcript domain round_type) "sentiment_label"
    ∧ Contains (generate_analysis_prompt transcript domain round_type) "improvement_suggestions"
    ∧ Contains (generate_analysis_prompt transcript domain round_type)
        "Generate the final analysis STRICTLY as a single JSON object that conforms to this schema. DO NOT include any text outside the JSON block." :=
  ⟨prompt_contains_of_schema _ _ _ (by decide),
   prompt_contains_of_schema _ _ _ (by decide),
   prompt_contains_of_schema _ _ _ (by decide),
   prompt_contains_of_schema _ _ _ (by decide),
   prompt_contains_of_schema _ _ _ (by decide),
   prompt_contains_of_schema _ _ _ (by decide),
   prompt_contains_of_schema _ _ _ (by decide),
   prompt_contains_of_schema _ _ _ (by decide),
   prompt_contains_of_schema _ _ _ (by decide),
   prompt_contains_of_schema _ _ _ (by decide),
   prompt_contains_of_part4 _ _ _ (by decide)⟩

/-- C7: the spec's coercion scenario - the canonical fully-populated response
in which speaker A's `confidence_score` is the string `"7"` renders to a
report whose speaker-A confidence score is the integer 7. -/
theorem C7_theorem :
    interpretStructuredJson canonicalResponse "RAW7" = AppOutcome.rendered canonicalReport
    ∧ canonicalReport.confA = 7 := ⟨rfl, rfl⟩

/-- C8: `generate_analysis_prompt` is a deterministic function of the
`(transcript, domain, round_type)` triple: two calls on equal inputs yield
equal strings (the embedding is a pure function, reflecting that the source
reads nothing but its arguments and the constant `JSON_SCHEMA`). -/
theorem C8_theorem (t1 d1 r1 t2 d2 r2 : String)
    (ht : t1 = t2) (hd : d1 = d2) (hr : r1 = r2) :
    generate_analysis_prompt t1 d1 r1 = generate_analysis_prompt t2 d2 r2 := by
  rw [ht, hd, hr]

/-- C8 witness: the theorem at a concrete repeated call. -/
theorem C8_witness :
    generate_analysis_prompt "Speaker A: Hi." "Tech/IT" "One-on-One Interview"
      = generate_analysis_prompt "Speaker A: Hi." "Tech/IT" "One-on-One Interview" :=
  C8_theorem "Speaker A: Hi." "Tech/IT" "One-on-One Interview"
    "Speaker A: Hi." "Tech/IT" "One-on-One Interview" rfl rfl rfl

/-- C9: `call_gemini` never propagates an exception - it returns a value for
every network outcome.  When the envelope traversal finds a payload, that
value is returned unchanged (a string as `text`, a non-string as itself, as
at app.py line 45 - not an exception path).  On every exception path (the
`none` branch of `netPayload`, i.e. a connection error, a 4xx/5xx status, an
undecodable body, or a raising traversal) with `format_json = True` it
returns the string `json.dumps` of a one-key `\x7b"error": msg\x7d` object,
so that a decoder satisfying the round-trip law at that object recovers
exactly it, and the caller's `"error"`-key check then reports the failure
instead of rendering a report. -/
theorem C9_theorem (loads : String → Option Json) (dumps : Json → String)
    (prompt api_key : String) (net : NetOutcome) :
    match netPayload loads api_key net with
    | some v => (call_gemini loads dumps prompt api_key true net).output = pyReturn v
    | none => ∃ msg,
        (call_gemini loads dumps prompt api_key true net).output
          = CallOutput.text (dumps (errObj msg))
        ∧ (loads (dumps (errObj msg)) = some (errObj msg) →
            interpretTop loads (dumps (errObj msg)) = AppOutcome.analysisFailed (Json.str msg)) := by
  have key : ∀ msg : String, loads (dumps (errObj msg)) = some (errObj msg) →
      interpretTop loads (dumps (errObj msg)) = AppOutcome.analysisFailed (Json.str msg) := by
    intro msg h
    unfold interpretTop
    rw [h]
    rfl
  cases net with
  | connectionError e => exact ⟨_, rfl, key _⟩
  | response r =>
      cases hh : httpErrorStr (GEMINI_API_URL ++ "?key=" ++ api_key) r with
      | some herr =>
          simp only [netPayload, call_gemini, hh]
          exact ⟨_, rfl, key _⟩
      | none =>
          cases hl : loads r.text with
          | none =>
              simp only [netPayload, call_gemini, hh, hl]
              exact ⟨_, rfl, key _⟩
          | some j =>
              cases hg : candidatePayload j with
              | none =>
                  simp only [netPayload, call_gemini, hh, hl, hg]
                  exact ⟨_, rfl, key _⟩
              | some v =>
                  simp only [netPayload, call_gemini, hh, hl, hg]

/-- C9 witness: the theorem at a concrete connection failure, with a codec
pair satisfying the round-trip law there; the second conjunct evaluates the
resulting detection concretely. -/
theorem C9_witness :
    (match netPayload loadsC9 "AIzaW" (NetOutcome.connectionError "boom") with
     | some v => (call_gemini loadsC9 dumpsC9 "p" "AIzaW" true
          (NetOutcome.connectionError "boom")).output = pyReturn v
     | none => ∃ msg,
        (call_gemini loadsC9 dumpsC9 "p" "AIzaW" true
            (NetOutcome.connectionError "boom")).output
          = CallOutput.text (dumpsC9 (errObj msg))
        ∧ (loadsC9 (dumpsC9 (errObj msg)) = some (errObj msg) →
            interpretTop loadsC9 (dumpsC9 (errObj msg))
              = AppOutcome.analysisFailed (Json.str msg)))
    ∧ interpretTop loadsC9 "EFAIL" = AppOutcome.analysisFailed (Json.str msgC9) :=
  ⟨C9_theorem loadsC9 dumpsC9 "p" "AIzaW" (NetOutcome.connectionError "boom"), rfl⟩

/-- C10: pressing Analyze with a key that does not start with `AIza` never
builds a prompt and never reaches `requests.post` (first conjunct); the
network is reached only for keys bearing the prefix (second conjunct). -/
theorem C10_theorem (loads : String → Option Json) (dumps : Json → String)
    (analyze_button : Bool) (transcript gemini_api_key domain round_type : String)
    (net : NetOutcome) :
    (pyStartsWith gemini_api_key "AIza" = false →
        (runApp loads dumps analyze_button transcript gemini_api_key domain round_type net).promptBuilt = false
      ∧ (runApp loads dumps analyze_button transcript gemini_api_key domain round_type net).networkCalled = false)
    ∧ ((runApp loads dumps analyze_button transcript gemini_api_key domain round_type net).networkCalled = true →
        pyStartsWith gemini_api_key "AIza" = true) := by
  unfold runApp
  split_ifs with h1 h2 h3
  · exact ⟨fun _ => ⟨rfl, rfl⟩, fun h => absurd h (by simp)⟩
  · refine ⟨fun hf => absurd hf h2, fun _ => ?_⟩
    simpa using h2
  · exact ⟨fun _ => ⟨rfl, rfl⟩, fun h => absurd h (by simp)⟩
  · exact ⟨fun _ => ⟨rfl, rfl⟩, fun h => absurd h (by simp)⟩

/-- C10 witness: the theorem at a concrete non-`AIza` key with the button
pressed and a nonempty transcript. -/
theorem C10_witness :
    (runApp loadsNone dumpsConst true "Speaker A: Hi." "sk-123" "Tech/IT"
        "One-on-One Interview" (NetOutcome.connectionError "x")).promptBuilt = false
    ∧ (runApp loadsNone dumpsConst true "Speaker A: Hi." "sk-123" "Tech/IT"
        "One-on-One Interview" (NetOutcome.connectionError "x")).networkCalled = false :=
  (C10_theorem loadsNone dumpsConst true "Speaker A: Hi." "sk-123" "Tech/IT"
    "One-on-One Interview" (NetOutcome.connectionError "x")).1 (by decide)
